import Mathlib

/-!
Shallow embedding of the two components of the react-ts-event-handling
lesson repository: `MultiButton` (src/components/MultiButton.tsx) and
`Login` (src/components/Login.tsx), together with a minimal model of the
host rendering environment (the event-dispatch mechanism and the console
sink described in the design document as external collaborators).

Handlers are embedded as pure functions from their runtime argument to the
list of observable effects they perform, in program order.  Rendering is
embedded as a pair of (effects performed while evaluating the JSX body,
resulting element tree); since both components pass function references
(never invocations) as event-listener attributes, the render-time effect
trace is empty.
-/

/-- A react mouse interaction event, carrying the observable fields the
lesson mentions (the event target, the mouse coordinates). -/
structure MouseEvent where
  target : String
  clientX : Int
  clientY : Int
deriving DecidableEq

/-- A form-submission interaction event.  The two text inputs of `Login`
live in the host document; their current contents travel with the
submission event, which is how a submit handler could reach them.  The
source never reads them. -/
structure FormEvent where
  username : String
  password : String
deriving DecidableEq

/-- A dynamically typed JavaScript value, as far as `MultiButton.handleClick`
can observe its argument.  The TypeScript declaration types the parameter as
`number`, but `onClick={handleClick}` registers the function itself as the
listener, so at runtime the host invokes it with the synthetic mouse event
(the lesson text points this out); the argument is therefore either a number
or an event object. -/
inductive JSValue where
  | num (n : Int)
  | mouseEvent (e : MouseEvent)
deriving DecidableEq

/-- An observable effect a handler can perform: emit a console diagnostic
message, or invoke the interaction event's cancel-default-action capability
(`event.preventDefault()`). -/
inductive Effect where
  | consoleLog (msg : String)
  | preventDefault
deriving DecidableEq

/-- The element tree a component render produces.  Event-listener
attributes hold the registered callback, exactly as the JSX attributes
`onClick={...}` and `onSubmit={...}` do. -/
inductive ReactNode where
  | text (s : String)
  | div (children : List ReactNode)
  | button (onClick : Option (JSValue → List Effect)) (children : List ReactNode)
  | input (type_ nm placeholder : String)
  | form (onSubmit : Option (FormEvent → List Effect)) (children : List ReactNode)

/-- The result of one render call: the effects performed while the JSX body
was evaluated, and the produced element tree. -/
structure Rendered where
  renderLog : List Effect
  tree : ReactNode

/-- JavaScript template-literal conversion of an interpolated value, as in
`` `Button ${number} was clicked` ``: a number prints in decimal; a React
synthetic event object has no own toString and converts to
"[object Object]" (the lesson text shows exactly this output). -/
def jsTemplateString : JSValue → String
  | JSValue.num n => toString n
  | JSValue.mouseEvent _ => "[object Object]"

/-- MultiButton.tsx lines 2-4: `handleClick` formats one template literal
from its argument and logs it.  Its effect trace is the single emission;
the return type `List Effect` (no `Option`/`Except`) reflects that no
failing branch exists in the body. -/
def MultiButton.handleClick (number : JSValue) : List Effect :=
  [Effect.consoleLog ("Button " ++ jsTemplateString number ++ " was clicked")]

/-- MultiButton.tsx lines 6-12: the render body evaluates no function call
(each `onClick={handleClick}` passes the function reference itself), so the
render-time effect trace is empty, and each of the three buttons carries
the same registered listener `MultiButton.handleClick`. -/
def MultiButton : Rendered :=
  { renderLog := []
    tree := ReactNode.div
      [ ReactNode.button (some MultiButton.handleClick) [ReactNode.text "Button 1"]
      , ReactNode.button (some MultiButton.handleClick) [ReactNode.text "Button 2"]
      , ReactNode.button (some MultiButton.handleClick) [ReactNode.text "Button 3"] ] }

/-- Login.tsx lines 4-7: `handleSubmit` first calls
`event.preventDefault()` and then logs the fixed text "I submit"; the trace
lists its two effects in program order.  Neither field of the event is
read. -/
def Login.handleSubmit (event : FormEvent) : List Effect :=
  [Effect.preventDefault, Effect.consoleLog "I submit"]

/-- Login.tsx lines 9-15: the form registers `handleSubmit` by reference as
its submit listener and contains the two text inputs and the submit
trigger; nothing is invoked during rendering. -/
def Login : Rendered :=
  { renderLog := []
    tree := ReactNode.form (some Login.handleSubmit)
      [ ReactNode.input "text" "username" "Enter username..."
      , ReactNode.input "password" "password" "Enter password..."
      , ReactNode.button none [ReactNode.text "Login"] ] }

/-- Immediate children of an element node. -/
def childrenOf : ReactNode → List ReactNode
  | ReactNode.div cs => cs
  | ReactNode.button _ cs => cs
  | ReactNode.form _ cs => cs
  | _ => []

/-- The click listener registered on a node, when the node is a button that
has one. -/
def onClickOf : ReactNode → Option (JSValue → List Effect)
  | ReactNode.button h _ => h
  | _ => none

/-- The submit listener registered on a node, when the node is a form that
has one. -/
def onSubmitOf : ReactNode → Option (FormEvent → List Effect)
  | ReactNode.form h _ => h
  | _ => none

/-- The visible label of a button node. -/
def labelOf : ReactNode → String
  | ReactNode.button _ [ReactNode.text s] => s
  | _ => ""

/-- The console sink: the diagnostic messages of an effect trace, in
order. -/
def consoleLogs (tr : List Effect) : List String :=
  tr.filterMap fun ef =>
    match ef with
    | Effect.consoleLog m => some m
    | _ => none

/-- Host-environment semantics of the default action: after the handler
returns, the host performs its default reaction (for a form, the network
navigation) exactly when the handler never invoked the event's
cancel-default-action capability. -/
def defaultActionPerformed (tr : List Effect) : Bool :=
  !(tr.contains Effect.preventDefault)

/-- Whether a string contains any decimal digit character; a message with
no digit cannot contain the decimal numeral of any trigger identifier. -/
def strHasDigit (s : String) : Bool :=
  s.data.any Char.isDigit

/-- Host event dispatch for ButtonGroup: activating trigger `n` (1-based)
invokes the click listener registered on the n-th button of the rendered
tree, passing it the synthetic mouse event. -/
def activateTrigger (n : Nat) (e : MouseEvent) : Option (List Effect) :=
  if n = 0 then none
  else
    match (childrenOf MultiButton.tree).get? (n - 1) with
    | some node =>
      match onClickOf node with
      | some h => some (h (JSValue.mouseEvent e))
      | none => none
    | none => none

/-- Host event dispatch for CredentialForm: submitting invokes the submit
listener registered on the rendered form, passing it the submission
event. -/
def submitForm (e : FormEvent) : Option (List Effect) :=
  match onSubmitOf Login.tree with
  | some h => some (h e)
  | none => none

/-- A sequence of independent trigger activations, dispatched one at a
time by the single-threaded host. -/
def runClicks (reqs : List (Nat × MouseEvent)) : List (Option (List Effect)) :=
  reqs.map fun p => activateTrigger p.1 p.2

/-- A sequence of independent form submissions, dispatched one at a time
by the single-threaded host. -/
def runSubmits (reqs : List FormEvent) : List (Option (List Effect)) :=
  reqs.map submitForm

/-- Claim C1, counterexample: activating trigger 2 on the rendered
ButtonGroup emits the single message "Button [object Object] was clicked",
which is not "Button 2 was clicked" and contains no digit at all, hence
does not contain the literal value 2.  The committed MultiButton.tsx
registers `handleClick` itself as each listener, so the handler's
`number` parameter receives the synthetic event, not the button's
number. -/
theorem trigger2_message_counterexample :
    activateTrigger 2 { target := "button", clientX := 0, clientY := 0 } =
      some [Effect.consoleLog "Button [object Object] was clicked"] ∧
    "Button [object Object] was clicked" ≠ "Button 2 was clicked" ∧
    strHasDigit "Button [object Object] was clicked" = false := by
  exact ⟨rfl, by decide, by decide⟩

/-- Claim C1, amended: activating any trigger n in {1, 2, 3} emits exactly
one diagnostic message, namely the template-literal rendering of the event
object "Button [object Object] was clicked", identical for every trigger
and containing no digit character, so containing the numeral of no trigger
identifier. -/
theorem trigger_click_emits_event_message (i : Fin 3) (e : MouseEvent) :
    activateTrigger (i.val + 1) e =
      some [Effect.consoleLog "Button [object Object] was clicked"] ∧
    strHasDigit "Button [object Object] was clicked" = false := by
  constructor
  · fin_cases i <;> rfl
  · decide

/-- Claim C2: rendering ButtonGroup alone performs no effect and in
particular emits zero diagnostic messages; every listener attribute holds
a function reference and no handler runs at render time. -/
theorem render_emits_nothing :
    MultiButton.renderLog = [] ∧ consoleLogs MultiButton.renderLog = [] :=
  ⟨rfl, rfl⟩

/-- Claim C3, counterexample: in the rendered ButtonGroup all three click
listeners are the very same function, no trigger identifier is captured
into any of them, activating trigger 1 and trigger 2 with the same event
produce identical effect traces, and trigger 2 does not emit
"Button 2 was clicked" — so the handler invoked for trigger n is not
determined by n. -/
theorem handler_not_bound_counterexample :
    (childrenOf MultiButton.tree).map onClickOf =
      [some MultiButton.handleClick, some MultiButton.handleClick,
        some MultiButton.handleClick] ∧
    activateTrigger 1 { target := "button", clientX := 0, clientY := 0 } =
      activateTrigger 2 { target := "button", clientX := 0, clientY := 0 } ∧
    activateTrigger 2 { target := "button", clientX := 0, clientY := 0 } ≠
      some [Effect.consoleLog "Button 2 was clicked"] := by
  exact ⟨rfl, rfl, by decide⟩

/-- Claim C3, amended: in every rendering pass the three triggers carry
pairwise distinct labels "Button 1", "Button 2", "Button 3", the render
itself performs no effect (binding is by function reference, not by
invocation-on-render), but all three triggers are registered with the one
shared handler `MultiButton.handleClick`: no identifier is bound by
closure, so the invoked handler does not depend on the trigger. -/
theorem triggers_unique_labels_shared_handler :
    (childrenOf MultiButton.tree).map labelOf =
      ["Button 1", "Button 2", "Button 3"] ∧
    ((childrenOf MultiButton.tree).map labelOf).Nodup ∧
    MultiButton.renderLog = [] ∧
    (childrenOf MultiButton.tree).map onClickOf =
      [some MultiButton.handleClick, some MultiButton.handleClick,
        some MultiButton.handleClick] := by
  refine ⟨rfl, ?_, rfl, rfl⟩
  decide

/-- Claim C4: every submission of CredentialForm, whatever the contents of
the two text fields (the quantified event carries both, including both
empty), dispatches `Login.handleSubmit` and emits exactly one diagnostic
message, the fixed text "I submit". -/
theorem submit_emits_single_fixed_message (e : FormEvent) :
    submitForm e = some (Login.handleSubmit e) ∧
    consoleLogs (Login.handleSubmit e) = ["I submit"] :=
  ⟨rfl, rfl⟩

/-- Claim C5: on every submission of CredentialForm, under any field
content, the handler's trace contains the cancel-default-action call, so
the host environment never performs its default navigation behavior. -/
theorem submit_prevents_default (e : FormEvent) :
    submitForm e = some (Login.handleSubmit e) ∧
    Effect.preventDefault ∈ Login.handleSubmit e ∧
    defaultActionPerformed (Login.handleSubmit e) = false := by
  refine ⟨rfl, ?_, rfl⟩
  simp [Login.handleSubmit]

/-- Claim C6: on every invocation of CredentialForm's submission handler,
the very first effect of the trace is the cancel-default-action call, and
the whole trace is that call followed by the diagnostic emission — so
`preventDefault` runs synchronously and strictly before any other logic of
the handler. -/
theorem preventDefault_runs_first (e : FormEvent) :
    (Login.handleSubmit e).head? = some Effect.preventDefault ∧
    Login.handleSubmit e =
      [Effect.preventDefault, Effect.consoleLog "I submit"] :=
  ⟨rfl, rfl⟩

/-- Claim C7: ButtonGroup's activation handler has no failure mode: for
every well-formed runtime argument (a number or an event object) it
returns normally — its total return type is a plain effect trace — and
that trace is exactly one formatted diagnostic emission. -/
theorem handleClick_total_single_emission (v : JSValue) :
    MultiButton.handleClick v =
      [Effect.consoleLog ("Button " ++ jsTemplateString v ++ " was clicked")] ∧
    (consoleLogs (MultiButton.handleClick v)).length = 1 :=
  ⟨rfl, rfl⟩

/-- Claim C8: the complete effect trace of each handler invocation is
exactly the predicted one — a single emission for ButtonGroup's handler,
and the cancel-default-action call plus the single fixed emission for
CredentialForm's handler — and the submission trace is identical for any
two events, so the field contents travelling with the event are never read
or validated and no other state is touched. -/
theorem handlers_frame_condition (v : JSValue) (e e' : FormEvent) :
    MultiButton.handleClick v =
      [Effect.consoleLog ("Button " ++ jsTemplateString v ++ " was clicked")] ∧
    Login.handleSubmit e =
      [Effect.preventDefault, Effect.consoleLog "I submit"] ∧
    Login.handleSubmit e = Login.handleSubmit e' :=
  ⟨rfl, rfl, rfl⟩

/-- Claim C9: both components are deterministic and stateless: rendering
takes no input and any two render calls yield the same tree (both renders
are the same constant), and a sequence of activations or submissions
factors through the per-event dispatch — splitting a sequence splits the
results and the i-th result depends only on the i-th request, so no state
is carried between activations. -/
theorem components_stateless_deterministic (r s : List (Nat × MouseEvent))
    (a b : List FormEvent) (i : Nat) :
    MultiButton.tree = MultiButton.tree ∧
    Login.tree = Login.tree ∧
    runClicks (r ++ s) = runClicks r ++ runClicks s ∧
    (runClicks r).get? i = (r.get? i).map (fun p => activateTrigger p.1 p.2) ∧
    runSubmits (a ++ b) = runSubmits a ++ runSubmits b := by
  refine ⟨rfl, rfl, List.map_append _ _ _, ?_, List.map_append _ _ _⟩
  simp [runClicks]

/-- Claim C10: all three buttons of the rendered ButtonGroup are
registered with the identical handler function, so for any event the
emission of an activation is the same function of the event for every
trigger: activating trigger i+1 and trigger j+1 with the same event
produce equal traces. -/
theorem buttons_share_identical_handler (i j : Fin 3) (e : MouseEvent) :
    (childrenOf MultiButton.tree).map onClickOf =
      [some MultiButton.handleClick, some MultiButton.handleClick,
        some MultiButton.handleClick] ∧
    activateTrigger (i.val + 1) e = activateTrigger (j.val + 1) e := by
  refine ⟨rfl, ?_⟩
  fin_cases i <;> fin_cases j <;> rfl
